import Mathlib

/-!
Verification of the PNCP tender-extraction pipeline (mvp-seglicit-backend).

This file gives a shallow embedding, in Lean 4, of the pure computational
core of the two scraper variants (`pncp_scraper_items_only.py`,
`pncp_scraper_automatizado.py`), of the integration service
(`src/services/scraper_integration.py`) and of the database reconciliation
step (`inserir_no_banco`), and proves or refutes the specification claims
about them.

Modelling conventions:
  * Python strings are modelled as `List Char` (or `String` where no
    character-level computation is needed). Python `len` counts code
    points, which agrees with list length.
  * Python character classes (`\s`, `isalpha`, `lower`) are modelled on
    the ASCII and Latin-1 ranges, which cover every character the scraped
    Portuguese-language source can produce in the relevant positions.
  * The handful of regular expressions used by the source are embedded as
    dedicated executable matchers, one per pattern, with search semantics
    (match anywhere) reproduced by explicit scanning with backtracking.
  * `float()` / `Decimal()` are modelled as exact rational parsing of
    digit/dot strings; on any other character the Python calls raise (and
    the callers catch and discard), modelled by `none`.  Exotic float
    syntax (exponents, underscores, signs) cannot reach these call sites
    from the regex-restricted fragments and is modelled as `none`.
  * The PostgreSQL `tenders` table is modelled as a list of rows; `UPDATE
    ... WHERE pncp_id = x` maps over all rows, `INSERT` appends.  A write
    that raises (caught per record by the source) is modelled by an
    externally supplied failure predicate on records.
-/

/-! ## Character classes (Python semantics on the ASCII / Latin-1 fragment) -/

/-- ASCII decimal digit, the class `\d` of the source regexes and the
characters accepted by `str.isdigit` on the scraped fragment. -/
def isDigitCh (c : Char) : Bool :=
  '0' ≤ c && c ≤ '9'

/-- Python `\s` / `str.split()` whitespace, restricted to ASCII:
space, tab, newline, carriage return, form feed, vertical tab. -/
def isSpaceCh (c : Char) : Bool :=
  c = ' ' || c = '\t' || c = '\n' || c = '\r' || c.toNat = 12 || c.toNat = 11

/-- ASCII letter, the class `[a-zA-Z]` of the source regexes. -/
def isAsciiLetter (c : Char) : Bool :=
  ('a' ≤ c && c ≤ 'z') || ('A' ≤ c && c ≤ 'Z')

/-- Python `str.isalpha`, restricted to ASCII plus the Latin-1 letters
(`U+00C0`–`U+00FF` without the multiplication and division signs, plus
`ª`, `º`, `µ`), which cover the Portuguese text of the source site. -/
def isAlphaCh (c : Char) : Bool :=
  isAsciiLetter c
    || (0xC0 ≤ c.toNat && c.toNat ≤ 0xFF && c.toNat ≠ 0xD7 && c.toNat ≠ 0xF7)
    || c.toNat = 0xAA || c.toNat = 0xBA || c.toNat = 0xB5

/-- Python `str.lower`, restricted to ASCII plus the Latin-1 uppercase
range (`U+00C0`–`U+00DE` without the multiplication sign). -/
def lowerCh (c : Char) : Char :=
  if 'A' ≤ c && c ≤ 'Z' then Char.ofNat (c.toNat + 32)
  else if 0xC0 ≤ c.toNat && c.toNat ≤ 0xDE && c.toNat ≠ 0xD7 then
    Char.ofNat (c.toNat + 32)
  else c

/-! ## Python string primitives -/

/-- Python `str.lower` over a whole string. -/
def pyLower (t : List Char) : List Char :=
  t.map lowerCh

/-- Python `str.strip()`: remove leading and trailing whitespace. -/
def pyStrip (t : List Char) : List Char :=
  ((t.dropWhile isSpaceCh).reverse.dropWhile isSpaceCh).reverse

/-- Whether `pat` is a prefix of `t` (character lists). -/
def startsWithCh : List Char → List Char → Bool
  | [], _ => true
  | _ :: _, [] => false
  | p :: ps, c :: cs => p = c && startsWithCh ps cs

/-- Python `pat in t`: substring containment. -/
def containsStr : List Char → List Char → Bool
  | t, p =>
    if startsWithCh p t then true
    else
      match t with
      | [] => false
      | _ :: t' => containsStr t' p

/-- Whether `t` ends with `pat`, the anchored regexes `\.pdf$` etc. -/
def endsWithCh (t pat : List Char) : Bool :=
  startsWithCh pat.reverse t.reverse

/-- Python `str.split(sep)` for a single-character separator: split at
every occurrence, keeping empty parts. -/
def splitOnChar (sep : Char) : List Char → List (List Char)
  | [] => [[]]
  | c :: t =>
    if c = sep then [] :: splitOnChar sep t
    else
      match splitOnChar sep t with
      | [] => [[c]]
      | p :: ps => (c :: p) :: ps

/-- Python `str.split()` (no argument): split on whitespace runs,
discarding empty parts. -/
def pySplitWhite : List Char → List (List Char)
  | [] => []
  | c :: t =>
    if isSpaceCh c then pySplitWhite t
    else
      match pySplitWhite t with
      | [] => [[c]]
      | p :: ps =>
        match t with
        | [] => [[c]]
        | c' :: _ => if isSpaceCh c' then [c] :: p :: ps else (c :: p) :: ps

/-- Worker for `replaceList`; the fuel (initially the text length) makes
the recursion structural, so that proofs can evaluate it. -/
def replaceListGo (pat rep : List Char) : Nat → List Char → List Char
  | 0, t => t
  | _, [] => []
  | fuel + 1, c :: t =>
    if startsWithCh pat (c :: t) && pat ≠ [] then
      rep ++ replaceListGo pat rep fuel (t.drop (pat.length - 1))
    else
      c :: replaceListGo pat rep fuel t

/-- Python `str.replace(pat, rep)` for a non-empty pattern: replace every
non-overlapping occurrence, scanning left to right. -/
def replaceList (pat rep t : List Char) : List Char :=
  replaceListGo pat rep t.length t

/-- Numeric value of a digit string, as Python `int` on an all-digit
string (`int("007") = 7`). -/
def natOfDigits (t : List Char) : Nat :=
  t.foldl (fun a c => a * 10 + (c.toNat - 48)) 0

/-- Python `str.isdigit()`: non-empty and all digits. -/
def pyIsDigit (t : List Char) : Bool :=
  t ≠ [] && t.all isDigitCh

/-! ## Embedded regular-expression search

The source uses `re.search` with patterns of the shape
`run₁.*run₂.*run₃` where each `runᵢ` is a sequence of fixed character
classes. For such patterns, search success is equivalent to the runs
occurring disjointly in order, and the first-occurrence scan below
realises exactly that. -/

/-- Try to match a sequence of character classes at the head of the text;
on success return the rest of the text. -/
def matchClasses : List (Char → Bool) → List Char → Option (List Char)
  | [], t => some t
  | _ :: _, [] => none
  | p :: ps, c :: cs => if p c then matchClasses ps cs else none

/-- Find the first position where the class run matches; return the text
after the match. -/
def findRun (pat : List (Char → Bool)) : List Char → Option (List Char)
  | [] => matchClasses pat []
  | c :: t' =>
    match matchClasses pat (c :: t') with
    | some rest => some rest
    | none => findRun pat t'

/-- Search for runs separated by `.*`: each run must occur after the end
of the previous one (`re.search` on `run₁.*run₂.*…`). -/
def searchRuns : List (List (Char → Bool)) → List Char → Bool
  | [], _ => true
  | pat :: pats, t =>
    match findRun pat t with
    | some rest => searchRuns pats rest
    | none => false

/-- Character classes of a literal string (each character matches itself). -/
def litRun (pat : List Char) : List (Char → Bool) :=
  pat.map (fun p => fun c => c == p)

/-! ## Row Validator (`is_valid_items_row`, pncp_scraper_items_only.py 447-504)

The validator lower-cases the stripped row text, rejects it if any noise
pattern matches, then accepts it if an item-shaped pattern matches and
the text has a significant word, else falls back to accepting any text of
length at least 10 that is not purely digits/whitespace/`/:-`. -/

/-- Class run for the digit class `\d`. -/
def digitRun (n : Nat) : List (Char → Bool) :=
  List.replicate n isDigitCh

/-- Search for the history-row pattern
`\d{2}/\d{2}/\d{4}.*\d{2}:\d{2}:\d{2}`. -/
def searchDateTimeRow (t : List Char) : Bool :=
  searchRuns
    [digitRun 2 ++ [fun c => c == '/'] ++ digitRun 2 ++ [fun c => c == '/'] ++ digitRun 4,
     digitRun 2 ++ [fun c => c == ':'] ++ digitRun 2 ++ [fun c => c == ':'] ++ digitRun 2] t

/-- Search for `lit₁.*lit₂`: both literals occur disjointly in order. -/
def searchTwoLits (a b : List Char) (t : List Char) : Bool :=
  searchRuns [litRun a, litRun b] t

/-- The noise classes rejected by `is_valid_items_row` (in source order:
history timestamps, audit verbs, attachment filename suffixes, empty and
whitespace-only rows; `re.search(r'^$')` and `re.search(r'^\s*$')` on
already-stripped text both reduce to emptiness). -/
def invalid_row_match (text : List Char) : Bool :=
  searchDateTimeRow text
    || searchTwoLits "inclusão".data "contratação".data text
    || searchTwoLits "inclusão".data "documento".data text
    || containsStr text "alteração".data
    || containsStr text "publicação".data
    || endsWithCh text ".pdf".data
    || endsWithCh text ".doc".data
    || endsWithCh text ".rar".data
    || containsStr text "ilovepdf".data
    || containsStr text "merged".data
    || text.isEmpty
    || text.all isSpaceCh

/-- The item-shaped accept patterns of `is_valid_items_row`:
`\d+.*[a-zA-Z]{3,}.*\d+`, `[a-zA-Z]{3,}.*\d+.*r\$`,
`[a-zA-Z]{3,}.*\d+.*\d+` (for search purposes, `\d+` and `{3,}` reduce to
their minimal lengths, the surrounding `.*` absorbing the rest). -/
def valid_row_match (text : List Char) : Bool :=
  searchRuns [digitRun 1, List.replicate 3 isAsciiLetter, digitRun 1] text
    || searchRuns [List.replicate 3 isAsciiLetter, digitRun 1, litRun "r$".data] text
    || searchRuns [List.replicate 3 isAsciiLetter, digitRun 1, digitRun 1] text

/-- Significant-word count: whitespace-split words that are longer than 3
characters and alphabetic (`w.isalpha()`). -/
def significant_words (text : List Char) : Nat :=
  ((pySplitWhite text).filter (fun w => w.length > 3 && w.all isAlphaCh)).length

/-- Characters of the final fallback rejection class `[\d\s/:-]`. -/
def isDigitSpacePunct (c : Char) : Bool :=
  isDigitCh c || isSpaceCh c || c = '/' || c = ':' || c = '-'

/-- Row Validator: `is_valid_items_row` of `pncp_scraper_items_only.py`
(lines 447-504). -/
def is_valid_items_row (row_text : String) : Bool :=
  let text := pyLower (pyStrip row_text.data)
  if invalid_row_match text then false
  else if valid_row_match text && significant_words text > 0 then true
  else text.length ≥ 10 && !(text ≠ [] && text.all isDigitSpacePunct)

/-! ## Value Normalizer: currency parsing

`pncp_scraper_items_only.py` captures the amount with
`re.search(r'R\$\s*([\d.,]+)', …)` and then runs
`.replace('.', '').replace(',', '.')` through `float`;
`pncp_scraper_automatizado.py` (`extract_angular_row_data_corrected`,
lines 714-746) instead strips the literal `R$`, and disambiguates the
separators: with exactly one comma the part before it loses its dots and
the part after it becomes the fraction, with no comma all dots are
dropped, otherwise the fallback replacement is applied. -/

/-- Characters allowed in the captured amount group `[\d.,]`. -/
def isAmountCh (c : Char) : Bool :=
  isDigitCh c || c = '.' || c = ','

/-- Model of Python `float()` on the cleaned amount fragments: a
non-empty string of digits with at most one dot denotes an exact decimal
(`float(".5") = 0.5`, `float("5.") = 5.0`); anything else raises, which
the callers catch — modelled as `none`. -/
def pyFloat (t : List Char) : Option Rat :=
  if t ≠ [] && t ≠ ['.'] && t.all (fun c => isDigitCh c || c = '.')
      && (t.filter (fun c => c = '.')).length ≤ 1 then
    match splitOnChar '.' t with
    | [ip] => some (mkRat (natOfDigits ip) 1)
    | [ip, fp] => some (mkRat (natOfDigits ip * 10 ^ fp.length + natOfDigits fp) (10 ^ fp.length))
    | _ => none
  else none

/-- Search for `R\$\s*([\d.,]+)` and return the captured group: the
first `R$` that is followed (after optional whitespace) by at least one
amount character. -/
def searchCurrency : List Char → Option (List Char)
  | [] => none
  | c :: t =>
    if startsWithCh "R$".data (c :: t) then
      let after := (t.drop 1).dropWhile isSpaceCh
      match after with
      | [] => searchCurrency t
      | a :: _ =>
        if isAmountCh a then some (after.takeWhile isAmountCh)
        else searchCurrency t
    else searchCurrency t

/-- Currency parsing of `pncp_scraper_items_only.py` (lines 566-574):
capture the amount, drop all dots, turn commas into dots, convert. -/
def parse_valor_items (data : List Char) : Option Rat :=
  match searchCurrency data with
  | none => none
  | some g => pyFloat (replaceList [','] ['.'] (replaceList ['.'] [] g))

/-- Separator disambiguation of `extract_angular_row_data_corrected`
(`pncp_scraper_automatizado.py` lines 724-735), applied to the fragment
with the currency marker already stripped. -/
def parse_valor_num (clean : List Char) : Option Rat :=
  if clean.contains ',' then
    match splitOnChar ',' clean with
    | [a, b] => pyFloat (replaceList ['.'] [] a ++ '.' :: b)
    | _ => pyFloat (replaceList [','] ['.'] (replaceList ['.'] [] clean))
  else pyFloat (replaceList ['.'] [] clean)

/-- Currency parsing of `pncp_scraper_automatizado.py` (lines 720-737):
strip every literal `R$`, strip surrounding whitespace, then
disambiguate the separators. -/
def parse_valor_auto (data : List Char) : Option Rat :=
  parse_valor_num (pyStrip (replaceList "R$".data [] data))

/-! ## Item Extractor: text-fallback row parsing

`parse_item_row` (`pncp_scraper_items_only.py` lines 637-689) splits the
row on `\t+|\s{3,}`; the automatizado variant `parse_item_row_corrected`
(lines 800-855) was committed with doubled backslashes inside raw
strings, so its patterns match literal backslashes (`\\t+` a backslash
followed by `t`s, `\\s{3,}` a backslash followed by three or more `s`,
`^\\d+$` a backslash followed by `d`s); both are embedded as written. -/

/-- Splitter `re.split(r'\t+|\s{3,}', …)`: at a tab, the delimiter is
the maximal tab run (`\t+` is tried first); otherwise at three
consecutive whitespace characters, the delimiter is the maximal
whitespace run. -/
def pySplitTab3Go : Nat → List Char → List Char → List (List Char)
  | 0, acc, _ => [acc.reverse]
  | _, acc, [] => [acc.reverse]
  | fuel + 1, acc, c :: t =>
    if c = '\t' then
      acc.reverse :: pySplitTab3Go fuel [] (t.dropWhile (fun c' => c' = '\t'))
    else if isSpaceCh c &&
        (match t with
         | a :: b :: _ => isSpaceCh a && isSpaceCh b
         | _ => false) then
      acc.reverse :: pySplitTab3Go fuel [] (t.dropWhile isSpaceCh)
    else pySplitTab3Go fuel (c :: acc) t

/-- Splitter `re.split(r'\t+|\s{3,}', …)` entry point. -/
def pySplitTab3 (acc t : List Char) : List (List Char) :=
  pySplitTab3Go t.length acc t

/-- Splitter of the automatizado variant, whose pattern
`r'\\t+|\\s{3,}'` denotes a literal backslash followed by `t+`, or a
literal backslash followed by `s{3,}`. -/
def pySplitTab3LitGo : Nat → List Char → List Char → List (List Char)
  | 0, acc, _ => [acc.reverse]
  | _, acc, [] => [acc.reverse]
  | fuel + 1, acc, c :: t =>
    if c = '\\' &&
        (match t with
         | a :: _ => a = 't'
         | _ => false) then
      acc.reverse :: pySplitTab3LitGo fuel [] (t.dropWhile (fun c' => c' = 't'))
    else if c = '\\' &&
        (match t with
         | a :: b :: d :: _ => a = 's' && b = 's' && d = 's'
         | _ => false) then
      acc.reverse :: pySplitTab3LitGo fuel [] (t.dropWhile (fun c' => c' = 's'))
    else pySplitTab3LitGo fuel (c :: acc) t

/-- Entry point of the backslash-literal splitter. -/
def pySplitTab3Lit (acc t : List Char) : List (List Char) :=
  pySplitTab3LitGo t.length acc t

/-- The stripped, non-empty parts of a split row
(`parts = [p.strip() for p in parts if p.strip()]`). -/
def row_parts (row_text : List Char) : List (List Char) :=
  ((pySplitTab3 [] (pyStrip row_text)).map pyStrip).filter (fun p => p ≠ [])

/-- Parts of the automatizado variant (backslash-literal splitter). -/
def row_parts_cor (row_text : List Char) : List (List Char) :=
  ((pySplitTab3Lit [] (pyStrip row_text)).map pyStrip).filter (fun p => p ≠ [])

/-- Monetary values found in the parts, in order: every part containing
`R$` whose captured amount converts (`pncp_scraper_items_only.py`
lines 659-668). -/
def valores_items (parts : List (List Char)) : List Rat :=
  parts.filterMap (fun p => if containsStr p "R$".data then parse_valor_items p else none)

/-- Monetary values of the automatizado variant (lines 818-836). -/
def valores_auto (parts : List (List Char)) : List Rat :=
  parts.filterMap (fun p => if containsStr p "R$".data then parse_valor_auto p else none)

/-- Full-match test for `^[\d\s,.$R]+$` (description noise class). -/
def isDescNoise (p : List Char) : Bool :=
  p ≠ [] && p.all (fun c => isDigitCh c || isSpaceCh c || c = ',' || c = '.' || c = '$' || c = 'R')

/-- Full-match test of the automatizado variant `^[\\d\\s,.$R]+$`,
whose class is the literal characters `\`, `d`, `s`, `,`, `.`, `$`, `R`. -/
def isDescNoiseLit (p : List Char) : Bool :=
  p ≠ [] && p.all (fun c => c = '\\' || c = 'd' || c = 's' || c = ',' || c = '.' || c = '$' || c = 'R')

/-- Longest part that is not description noise (`descricao` scan,
starting from the empty string). -/
def longest_desc (noise : List Char → Bool) (parts : List (List Char)) : List Char :=
  parts.foldl (fun best p => if p.length > best.length && !noise p then p else best) []

/-- Full-match test for `^\d+$` (after stripping). -/
def isAllDigits (p : List Char) : Bool :=
  pyIsDigit (pyStrip p)

/-- Full-match test of the automatizado variant `^\\d+$`: a literal
backslash followed by one or more `d`. -/
def isAllDigitsLit (p : List Char) : Bool :=
  match pyStrip p with
  | '\\' :: rest => rest ≠ [] && rest.all (fun c => c = 'd')
  | _ => false

/-- First quantity part: full digits (per the variant's pattern) and
different from the sequence-number part. -/
def find_quantidade (digitsTest : List Char → Bool) (numero : List Char)
    (parts : List (List Char)) : Option Nat :=
  match parts.find? (fun p => digitsTest p && p ≠ numero) with
  | some p => some (natOfDigits p)
  | none => none

/-- A line item produced by the text-fallback parser
(`numero`, `descricao`, `quantidade`, `valor_unitario`, `valor_total`,
`raw_text`, `extraction_method`). -/
structure ItemRow where
  numero : List Char
  descricao : List Char
  quantidade : Option Nat
  valor_unitario : Option Rat
  valor_total : Option Rat
  raw_text : List Char
  extraction_method : String
deriving DecidableEq

/-- Text-fallback parser `parse_item_row`
(`pncp_scraper_items_only.py` lines 637-689). -/
def parse_item_row (row_text : List Char) (index : Nat) : Option ItemRow :=
  let parts := row_parts row_text
  if parts.length < 3 then none
  else
    let numero := if pyIsDigit parts.head! then parts.head! else (toString (index + 1)).data
    let descricao := longest_desc isDescNoise (parts.drop 1)
    let valores := valores_items parts
    some
      { numero := numero
        descricao := if descricao ≠ [] then descricao.take 500 else ("Item " ++ toString (index + 1)).data
        quantidade := find_quantidade isAllDigits numero parts
        valor_unitario := valores.head?
        valor_total := if valores.length > 1 then valores.get? 1 else valores.head?
        raw_text := row_text
        extraction_method := "text_fallback_items_only" }

/-- Text-fallback parser `parse_item_row_corrected`
(`pncp_scraper_automatizado.py` lines 800-855), embedded with its
backslash-literal patterns as committed. -/
def parse_item_row_corrected (row_text : List Char) (index : Nat) : Option ItemRow :=
  let parts := row_parts_cor row_text
  if parts.length < 3 then none
  else
    let numero := if pyIsDigit parts.head! then parts.head! else (toString (index + 1)).data
    let descricao := longest_desc isDescNoiseLit (parts.drop 1)
    let valores := valores_auto parts
    some
      { numero := numero
        descricao := if descricao ≠ [] then descricao.take 500 else ("Item " ++ toString (index + 1)).data
        quantidade := find_quantidade isAllDigitsLit numero parts
        valor_unitario := valores.head?
        valor_total := if valores.length > 1 then valores.get? 1 else valores.head?
        raw_text := row_text
        extraction_method := "text_fallback_final" }

/-! ## Item Extractor: structural (Angular) cell interpretation

`extract_angular_row_data` (`pncp_scraper_items_only.py` lines 506-596)
and `extract_angular_row_data_corrected`
(`pncp_scraper_automatizado.py` lines 664-767) interpret the text of the
row's cells.  A monetary cell value is either a number or the literal
confidential marker `"Sigiloso"` (compared with `==`, case-sensitively);
`None` marks absence — the tri-state of the specification. -/

/-- A monetary cell value: a number or the confidential sentinel. -/
inductive PyVal where
  | num (q : Rat)
  | sig
deriving DecidableEq

/-- One step of the value-assignment loop over the cells (lines 563-580
resp. 718-751): a cell containing `R$` contributes its converted amount
(conversion failure contributes nothing); otherwise a cell that is
exactly `"Sigiloso"` contributes the sentinel; the first contribution
becomes `valor_unitario`, every later one overwrites `valor_total`. -/
def val_fold_step (conv : List Char → Option Rat)
    (st : Option PyVal × Option PyVal) (data : List Char) :
    Option PyVal × Option PyVal :=
  if containsStr data "R$".data then
    match conv data with
    | some v =>
      match st.1 with
      | none => (some (PyVal.num v), st.2)
      | some _ => (st.1, some (PyVal.num v))
    | none => st
  else if data = "Sigiloso".data then
    match st.1 with
    | none => (some PyVal.sig, st.2)
    | some _ => (st.1, some PyVal.sig)
  else st

/-- Unit/total value extraction of `extract_angular_row_data`
(`pncp_scraper_items_only.py` lines 559-580). -/
def extract_valores_items (cells : List (List Char)) : Option PyVal × Option PyVal :=
  cells.foldl (val_fold_step parse_valor_items) (none, none)

/-- Unit/total value extraction of `extract_angular_row_data_corrected`
(`pncp_scraper_automatizado.py` lines 714-751). -/
def extract_valores_auto (cells : List (List Char)) : Option PyVal × Option PyVal :=
  cells.foldl (val_fold_step parse_valor_auto) (none, none)

/-- A line item produced by the structural extractor. -/
structure ItemAngular where
  numero : List Char
  descricao : List Char
  quantidade : Option Nat
  valor_unitario : Option PyVal
  valor_total : Option PyVal
  raw_data : List (List Char)
  extraction_method : String
deriving DecidableEq

/-- Structural extractor `extract_angular_row_data`
(`pncp_scraper_items_only.py` lines 506-596), taking the already
extracted cell texts: it needs at least three cells, re-validates the
joined text with the Row Validator, and interprets the cells
positionally. -/
def extract_angular_row_data (cells : List (List Char)) (index : Nat) :
    Option ItemAngular :=
  if cells.length < 3 then none
  else
    let row_text := List.intercalate " ".data cells
    if !is_valid_items_row (String.mk row_text) then none
    else
      let numero := if pyIsDigit cells.head! then cells.head! else (toString (index + 1)).data
      let descricao :=
        if (cells.get! 1).length > 5 then cells.get! 1
        else ("Item " ++ toString (index + 1)).data
      let quantidade :=
        match (cells.drop 2).find? pyIsDigit with
        | some d => some (natOfDigits d)
        | none => none
      let vs := extract_valores_items cells
      some
        { numero := numero
          descricao := descricao.take 500
          quantidade := quantidade
          valor_unitario := vs.1
          valor_total := vs.2
          raw_data := cells
          extraction_method := "angular_items_tab_only" }

/-! ## Integration-layer decimal conversion

`safe_decimal_conversion` (`src/services/scraper_integration.py`
lines 83-122) for string inputs: the confidential markers are compared
case-insensitively and mapped to `None`; other strings are reduced to
their digit/comma/dot characters, the separators normalised, and parsed
as `Decimal` (which, on the reachable digit/dot fragment, coincides with
the exact decimal parsing `pyFloat`). -/
def safe_decimal_conversion (value : List Char) : Option Rat :=
  let str_value := pyStrip value
  let low := pyLower str_value
  if low = "sigiloso".data || low = "sigilosa".data || low = "n/a".data
      || low = "não informado".data || low = [] then none
  else
    let clean := str_value.filter (fun c => isDigitCh c || c = ',' || c = '.')
    let clean2 :=
      if clean.contains ',' && !clean.contains '.' then
        replaceList [','] ['.'] clean
      else if clean.contains ',' && clean.contains '.' then
        match splitOnChar ',' clean with
        | [a, b] => replaceList ['.'] [] a ++ '.' :: b
        | _ => clean
      else clean
    if clean2 ≠ [] then pyFloat clean2 else none

/-! ## Value Normalizer: date parsing

`safe_extract_date` (`pncp_scraper_items_only.py` lines 1097-1115)
searches `(\d{1,2}/\d{1,2}/\d{4})` after the literal marker
`Última Atualização:` and normalises the match through
`datetime.strptime(…, '%d/%m/%Y').date().isoformat()`; every failure
path returns `date.today().isoformat()`.  `inserir_no_banco`
(`pncp_scraper_automatizado.py` lines 1156-1160) parses the stored
string with `strptime(…, '%Y-%m-%d')` and defaults to
`datetime.now().date()` on failure. -/

/-- A calendar date (year, month, day). -/
structure YMD where
  y : Nat
  m : Nat
  d : Nat
deriving DecidableEq

/-- Gregorian leap year. -/
def isLeap (y : Nat) : Bool :=
  y % 4 = 0 && (y % 100 ≠ 0 || y % 400 = 0)

/-- Days in a month. -/
def daysInMonth (y m : Nat) : Nat :=
  if m = 1 || m = 3 || m = 5 || m = 7 || m = 8 || m = 10 || m = 12 then 31
  else if m = 4 || m = 6 || m = 9 || m = 11 then 30
  else if m = 2 then (if isLeap y then 29 else 28)
  else 0

/-- Calendar validity as enforced by `datetime` (`MINYEAR = 1`). -/
def validYMD (y m d : Nat) : Bool :=
  1 ≤ y && y ≤ 9999 && 1 ≤ m && m ≤ 12 && 1 ≤ d && d ≤ daysInMonth y m

/-- Zero-padded decimal rendering. -/
def padNat (width n : Nat) : List Char :=
  let s := (toString n).data
  List.replicate (width - s.length) '0' ++ s

/-- Python `date.isoformat()`: `YYYY-MM-DD`. -/
def isoOfYMD (dt : YMD) : List Char :=
  padNat 4 dt.y ++ '-' :: (padNat 2 dt.m ++ '-' :: padNat 2 dt.d)

/-- Model of `datetime.strptime(s, '%Y-%m-%d').date()`: three dash
separated all-digit fields of at most 4/2/2 digits denoting a valid
calendar date; anything else raises, modelled as `none`. -/
def parse_date_iso (s : List Char) : Option YMD :=
  match splitOnChar '-' s with
  | [ys, ms, ds] =>
    if pyIsDigit ys && ys.length ≤ 4 && pyIsDigit ms && ms.length ≤ 2
        && pyIsDigit ds && ds.length ≤ 2
        && validYMD (natOfDigits ys) (natOfDigits ms) (natOfDigits ds) then
      some ⟨natOfDigits ys, natOfDigits ms, natOfDigits ds⟩
    else none
  | _ => none

/-- Matcher for `\d{1,2}/\d{1,2}/\d{4}` at the head of the text, with
the regex backtracking (two digits preferred, then one). -/
def matchBRDateAt (t : List Char) : Option (Nat × Nat × Nat) :=
  let grab2or1 : List Char → Option (Nat × List Char) := fun u =>
    match u with
    | a :: b :: '/' :: rest =>
      if isDigitCh a && isDigitCh b then some (natOfDigits [a, b], rest)
      else none
    | a :: '/' :: rest => if isDigitCh a then some (natOfDigits [a], rest) else none
    | _ => none
  match grab2or1 t with
  | none => none
  | some (d, t₁) =>
    match grab2or1 t₁ with
    | none => none
    | some (m, t₂) =>
      match t₂ with
      | y1 :: y2 :: y3 :: y4 :: _ =>
        if isDigitCh y1 && isDigitCh y2 && isDigitCh y3 && isDigitCh y4 then
          some (d, m, natOfDigits [y1, y2, y3, y4])
        else none
      | _ => none

/-- Search for `(\d{1,2}/\d{1,2}/\d{4})`: first matching position. -/
def searchBRDate : List Char → Option (Nat × Nat × Nat)
  | [] => none
  | c :: t =>
    match matchBRDateAt (c :: t) with
    | some r => some r
    | none => searchBRDate t

/-- Worker for `pySplitList` (fuel makes the recursion structural). -/
def pySplitListGo (sep : List Char) : Nat → List Char → List (List Char)
  | 0, t => [t]
  | _, [] => [[]]
  | fuel + 1, c :: t =>
    if startsWithCh sep (c :: t) && sep ≠ [] then
      [] :: pySplitListGo sep fuel (t.drop (sep.length - 1))
    else
      match pySplitListGo sep fuel t with
      | [] => [[c]]
      | p :: ps => (c :: p) :: ps

/-- Python `text.split(sep)` for a multi-character separator. -/
def pySplitList (sep t : List Char) : List (List Char) :=
  pySplitListGo sep t.length t

/-- Date extraction `safe_extract_date`
(`pncp_scraper_items_only.py` lines 1097-1115), with the current date
passed explicitly: the text after the first update marker and before the
next newline is searched for a `d/m/yyyy` date, which is validated and
ISO-formatted; on any failure "today" is returned. -/
def safe_extract_date (today : YMD) (text : List Char) : List Char :=
  if containsStr text "Última Atualização:".data then
    let parts := pySplitList "Última Atualização:".data text
    let date_part := pyStrip ((splitOnChar '\n' (parts.get! 1)).get! 0)
    match searchBRDate date_part with
    | some (d, m, y) =>
      if validYMD y m d then isoOfYMD ⟨y, m, d⟩ else isoOfYMD today
    | none => isoOfYMD today
  else isoOfYMD today

/-- Publication-date handling of `inserir_no_banco`
(`pncp_scraper_automatizado.py` lines 1156-1160): parse the ISO string,
defaulting to `datetime.now().date()` on failure. -/
def dados_publication_date (today : YMD) (s : List Char) : YMD :=
  (parse_date_iso s).getD today

/-! ## Reconciler (`inserir_no_banco`, pncp_scraper_automatizado.py 1111-1224)

The store (`tenders` table) is a list of rows.  `inserir_no_banco` loads
the set of stored identifiers once, then, per record: if its `pncp_id`
is truthy (non-empty) and among the loaded identifiers, all rows with
that identifier are overwritten field by field (`UPDATE … WHERE
pncp_id = …`, which does not touch `data_source`, `created_at`, nor the
key itself); otherwise a fresh row is appended.  A write that raises is
caught per record (`continue`), modelled by the failure predicate
`fails`; the function finally commits and returns `True` (count values
are only logged).  `datetime.now()` is passed explicitly as `today` (for
the date default) and `now` (for `created_at`). -/

/-- An input record of the batch, with the keys `inserir_no_banco`
reads; `items` and `downloaded_files` carry the child dictionaries in an
opaque serialised form. -/
structure Edital where
  pncp_id : String
  title : String
  description : String
  organization_name : String
  municipality_name : String
  state_code : String
  status : String
  modality : String
  estimated_value : Option Rat
  valor_total_estimado : Option Rat
  source_url : String
  detail_url : String
  data_source : String
  objeto : String
  detailed_description : String
  items : List String
  downloaded_files : List String
  publication_date : String
deriving DecidableEq

/-- A row of the `tenders` table, with the columns written by the
INSERT of `inserir_no_banco`. -/
structure Row where
  pncp_id : String
  title : String
  description : String
  organization_name : String
  municipality_name : String
  state_code : String
  publication_date : YMD
  status : String
  modality : String
  estimated_value : Option Rat
  valor_total_estimado : Option Rat
  source_url : String
  detail_url : String
  data_source : String
  objeto : String
  detailed_description : String
  items_json : String
  downloaded_files_json : String
  items_count : Nat
  downloads_count : Nat
  created_at : Nat
deriving DecidableEq

/-- Abstract stand-in for `json.dumps` on the serialised children. -/
def json_dumps_list (xs : List String) : String :=
  "[" ++ String.intercalate ", " xs ++ "]"

/-- The `dados` dictionary built for one record (lines 1132-1160),
which is exactly the row the INSERT branch writes. -/
def dados_of (today : YMD) (now : Nat) (e : Edital) : Row :=
  { pncp_id := e.pncp_id
    title := e.title
    description := e.description
    organization_name := e.organization_name
    municipality_name := e.municipality_name
    state_code := e.state_code
    publication_date := dados_publication_date today e.publication_date.data
    status := e.status
    modality := e.modality
    estimated_value := e.estimated_value
    valor_total_estimado := e.valor_total_estimado
    source_url := e.source_url
    detail_url := e.detail_url
    data_source := e.data_source
    objeto := e.objeto
    detailed_description := e.detailed_description
    items_json := json_dumps_list e.items
    downloaded_files_json := json_dumps_list e.downloaded_files
    items_count := e.items.length
    downloads_count := e.downloaded_files.length
    created_at := now }

/-- The UPDATE statement (lines 1165-1186) applied to one row: rows
whose key matches get every SET column overwritten; `data_source`,
`created_at` and the key are not in the SET list and are preserved. -/
def update_row (d : Row) (r : Row) : Row :=
  if r.pncp_id = d.pncp_id then
    { r with
      title := d.title
      description := d.description
      organization_name := d.organization_name
      municipality_name := d.municipality_name
      state_code := d.state_code
      publication_date := d.publication_date
      status := d.status
      modality := d.modality
      estimated_value := d.estimated_value
      valor_total_estimado := d.valor_total_estimado
      source_url := d.source_url
      detail_url := d.detail_url
      objeto := d.objeto
      detailed_description := d.detailed_description
      items_json := d.items_json
      downloaded_files_json := d.downloaded_files_json
      items_count := d.items_count
      downloads_count := d.downloads_count }
  else r

/-- The identifiers loaded at batch start (`SELECT pncp_id FROM tenders
WHERE pncp_id IS NOT NULL`; both writers store strings, the empty string
standing for a missing identifier, so no row holds SQL NULL). -/
def existing_ids (store : List Row) : List String :=
  store.map (fun r => r.pncp_id)

/-- The branch condition `if pncp_id and pncp_id in existing_ids`
(line 1163): non-empty and already stored. -/
def should_update (ex : List String) (e : Edital) : Bool :=
  e.pncp_id ≠ "" && ex.contains e.pncp_id

/-- Processing of one record of the batch (lines 1129-1211): a failing
write is caught and skipped, otherwise the record updates all matching
rows or is inserted, and the corresponding counter advances. -/
def apply_edital (fails : Edital → Bool) (ex : List String) (today : YMD) (now : Nat)
    (acc : List Row × Nat × Nat) (e : Edital) : List Row × Nat × Nat :=
  let d := dados_of today now e
  if fails e then acc
  else if should_update ex e then
    (acc.1.map (update_row d), acc.2.1, acc.2.2 + 1)
  else
    (acc.1 ++ [d], acc.2.1 + 1, acc.2.2)

/-- Result of `inserir_no_banco`: the committed store, the two logged
counters, and the boolean handed back to the caller. -/
structure DBResult where
  store : List Row
  inseridos : Nat
  atualizados : Nat
  ret : Bool
deriving DecidableEq

/-- Reconciliation `inserir_no_banco`
(`pncp_scraper_automatizado.py` lines 1111-1224). -/
def inserir_no_banco (fails : Edital → Bool) (today : YMD) (now : Nat)
    (store : List Row) (editais : List Edital) : DBResult :=
  let ex := existing_ids store
  let fin := editais.foldl (apply_edital fails ex today now) (store, 0, 0)
  { store := fin.1, inseridos := fin.2.1, atualizados := fin.2.2, ret := true }

/-- No write failures. -/
def no_fail : Edital → Bool := fun _ => false

/-- Number of store rows carrying a given identifier. -/
def count_id (x : String) (store : List Row) : Nat :=
  (store.filter (fun r => r.pncp_id = x)).length

/-! ## File Collector (`find_and_download_files` / `download_file`,
pncp_scraper_items_only.py 751-882)

The page is abstracted by, per selector of the fixed priority list, the
list of matched link elements; a link carries its `href` attribute and,
if clicking it fires the download event within the bounded wait, the
engine-suggested filename and the size of the saved file (absent when
`os.path.exists` fails, in which case 0 is recorded). -/

/-- The download triggered by clicking a link: the engine-suggested
filename (empty when Playwright supplies none) and the size of the file
saved to disk. -/
structure DDownload where
  suggested : String
  size : Option Nat
deriving DecidableEq

/-- A matched link element. -/
structure DLink where
  href : Option String
  download : Option DDownload
deriving DecidableEq

/-- A recorded file descriptor. -/
structure DFile where
  filename : String
  filepath : String
  size : Nat
deriving DecidableEq

/-- One download attempt, `download_file` (lines 828-882): absent
download event means `None`; otherwise the file is saved under
`downloads/edital_{edital_index}_{file_index}_{suggested}` (with a
synthesised suggestion when the engine provides none) and its on-disk
size recorded. -/
def download_file (edital_index file_index : Nat) (lk : DLink) : Option DFile :=
  match lk.download with
  | none => none
  | some d =>
    let suggested :=
      if d.suggested = "" then
        "arquivo_" ++ toString edital_index ++ "_" ++ toString file_index ++ ".pdf"
      else d.suggested
    let filename :=
      "edital_" ++ toString edital_index ++ "_" ++ toString file_index ++ "_" ++ suggested
    some
      { filename := filename
        filepath := "downloads/" ++ filename
        size := d.size.getD 0 }

/-- Pairs each element with its position, Python `enumerate`. -/
def enumFrom {α : Type} (i : Nat) : List α → List (Nat × α)
  | [] => []
  | a :: t => (i, a) :: enumFrom (i + 1) t

/-- Processing of the links matched by one selector (lines 787-812): of
the first five, each link with an `href` is clicked and a successful
download recorded. -/
def process_selector (edital_index : Nat) (links : List DLink) : List DFile :=
  (enumFrom 0 (links.take 5)).filterMap
    (fun p => if p.2.href.isSome then download_file edital_index p.1 p.2 else none)

/-- File Collector `find_and_download_files` (lines 751-826): the
selectors are tried in their fixed order and the scan stops at the
first one whose processing yields at least one downloaded file. -/
def find_and_download_files (edital_index : Nat)
    (selector_results : List (List DLink)) : List DFile :=
  match selector_results with
  | [] => []
  | links :: rest =>
    let fs := process_selector edital_index links
    if fs.isEmpty then find_and_download_files edital_index rest else fs

/-! ## Auxiliary definitions for the statements -/

/-- The per-record store transformation of `inserir_no_banco` (the first
component of `apply_edital`), used to state fold decompositions. -/
def store_step (fails : Edital → Bool) (ex : List String) (today : YMD) (now : Nat)
    (s : List Row) (e : Edital) : List Row :=
  let d := dados_of today now e
  if fails e then s
  else if should_update ex e then s.map (update_row d)
  else s ++ [d]

/-- Equality of the columns listed in the UPDATE's SET clause (the
descriptive, financial and child-collection fields overwritten on a
match). -/
def updated_fields_eq (r d : Row) : Bool :=
  r.title == d.title && r.description == d.description
    && r.organization_name == d.organization_name
    && r.municipality_name == d.municipality_name
    && r.state_code == d.state_code
    && r.publication_date == d.publication_date
    && r.status == d.status && r.modality == d.modality
    && r.estimated_value == d.estimated_value
    && r.valor_total_estimado == d.valor_total_estimado
    && r.source_url == d.source_url && r.detail_url == d.detail_url
    && r.objeto == d.objeto && r.detailed_description == d.detailed_description
    && r.items_json == d.items_json
    && r.downloaded_files_json == d.downloaded_files_json
    && r.items_count == d.items_count && r.downloads_count == d.downloads_count

/-- Whether a cell contributes a monetary value in the value-assignment
loop (an `R$` cell whose conversion succeeds, or the exact literal
`"Sigiloso"`). -/
def cell_contributes (conv : List Char → Option Rat) (c : List Char) : Bool :=
  if containsStr c "R$".data then (conv c).isSome else c = "Sigiloso".data

/-- A fixed sample record used to instantiate the theorems. -/
def sample_edital (id title : String) : Edital :=
  { pncp_id := id
    title := title
    description := "descrição"
    organization_name := "Prefeitura"
    municipality_name := "São Paulo"
    state_code := "SP"
    status := "Publicado"
    modality := "Pregão Eletrônico"
    estimated_value := none
    valor_total_estimado := some (mkRat 10 1)
    source_url := "https://pncp.gov.br/app/editais?ufs=SP"
    detail_url := "https://pncp.gov.br/editais/1"
    data_source := "PNCP_SCRAPING_FINAL"
    objeto := "objeto"
    detailed_description := "detalhes"
    items := ["item1"]
    downloaded_files := []
    publication_date := "2024-08-15" }

/-- A fixed sample date ("today") used to instantiate the theorems. -/
def sample_today : YMD := ⟨2025, 10, 12⟩

/-- A fixed sample download link used to instantiate the theorems. -/
def sample_dlink : DLink :=
  { href := some "u", download := some { suggested := "doc.pdf", size := some 123 } }

/-- The descriptor recorded for `sample_dlink` as file 0 of tender 3. -/
def sample_dfile : DFile :=
  { filename := "edital_3_0_doc.pdf"
    filepath := "downloads/edital_3_0_doc.pdf"
    size := 123 }

/-- The item parsed from the sample row
`"02   Caneta azul   12   R$ 1,00"` (one currency-marked value). -/
def sample_item : ItemRow :=
  { numero := "02".data
    descricao := "Caneta azul".data
    quantidade := some 12
    valor_unitario := some (mkRat 100 100)
    valor_total := some (mkRat 100 100)
    raw_text := "02   Caneta azul   12   R$ 1,00".data
    extraction_method := "text_fallback_items_only" }

/-! ## Theorems for the specification claims -/

/-- Claim C6, counterexample: the quoted row, whose fields are separated
by single spaces, is not split by `re.split(r'\t+|\s{3,}', …)`, so the
text-fallback parser yields no item at all — the claim's asserted parse
result (sequence `"01"`, quantity 500, unit 12.50, total 6250.00) does
not hold of the row as written. -/
theorem c6_single_space_parse_counterexample :
    parse_item_row "01 Fornecimento de merenda escolar 500 R$ 12,50 R$ 6250,00".data 0 = none := by
  decide

/-- Claim C6, amended: the Row Validator rejects the history-log row and
accepts the item row, and the accepted row parses to sequence `"01"`,
quantity 500, unit value 12.50 and total value 6250.00 provided its
fields are separated by tabs (or runs of three or more spaces), the
separators the text-fallback parser splits on. -/
theorem c6_row_validity :
    is_valid_items_row "2024-05-01 10:22:33 Inclusão - Documento" = false
    ∧ is_valid_items_row "01 Fornecimento de merenda escolar 500 R$ 12,50 R$ 6250,00" = true
    ∧ parse_item_row "01\tFornecimento de merenda escolar\t500\tR$ 12,50\tR$ 6250,00".data 0 =
        some
          { numero := "01".data
            descricao := "Fornecimento de merenda escolar".data
            quantidade := some 500
            valor_unitario := some (mkRat 1250 100)
            valor_total := some (mkRat 625000 100)
            raw_text := "01\tFornecimento de merenda escolar\t500\tR$ 12,50\tR$ 6250,00".data
            extraction_method := "text_fallback_items_only" } := by
  refine ⟨by decide, by decide, by decide⟩

/-- Claim C3: the in-scope date parser and the store writer both default
to the current date instead of null.  `safe_extract_date` normalises
only `\d{1,2}/\d{1,2}/\d{4}` dates found after the update marker (first
conjunct); a two-digit year — which the claim says is accepted — is
rejected (second conjunct); and every failure path returns today's date
instead of a null marker (second and third conjuncts).  Likewise
`inserir_no_banco` stores today's date when the record's publication
date does not parse (fourth conjunct), where the claim requires null. -/
theorem c3_date_default_divergence :
    safe_extract_date sample_today "Última Atualização: 15/08/2024 10:00".data
      = "2024-08-15".data
    ∧ safe_extract_date sample_today "Última Atualização: 15/08/24".data
      = isoOfYMD sample_today
    ∧ safe_extract_date sample_today "texto sem data".data = isoOfYMD sample_today
    ∧ dados_publication_date sample_today "data inválida".data = sample_today
    ∧ (dados_of sample_today 7 (sample_edital "X" "T")).publication_date = ⟨2024, 8, 15⟩ := by
  refine ⟨by decide, by decide, by decide, by decide, by decide⟩

/-- Claim C5, counterexample: the cell `"SIGILOSO"` is the confidential
marker up to case (third conjunct), yet both structural extractors leave
the values null rather than mapping it to the sentinel, because the
source compares with `== "Sigiloso"` case-sensitively (first and second
conjuncts); and the integration-layer conversion collapses even the
exactly-spelled marker to null, not to a distinct sentinel (fourth
conjunct). -/
theorem c5_case_insensitive_counterexample :
    extract_valores_items ["SIGILOSO".data] = (none, none)
    ∧ extract_valores_auto ["SIGILOSO".data] = (none, none)
    ∧ pyLower "SIGILOSO".data = "sigiloso".data
    ∧ safe_decimal_conversion "Sigiloso".data = none := by
  refine ⟨by decide, by decide, by decide, by decide⟩

/-- Claim C1, counterexample: a batch with two records sharing the
non-empty external identifier `"X"` (absent from the empty store) makes
the Reconciler insert both — the identifier set is loaded once at batch
start and never refreshed — so the reconciled store holds two rows with
the same non-empty identifier, not exactly one. -/
theorem c1_duplicate_new_ids_counterexample :
    count_id "X"
      (inserir_no_banco no_fail sample_today 0 []
        [sample_edital "X" "A", sample_edital "X" "B"]).store = 2
    ∧ (inserir_no_banco no_fail sample_today 0 []
        [sample_edital "X" "A", sample_edital "X" "B"]).store.map
          (fun r => (r.pncp_id, r.title)) = [("X", "A"), ("X", "B")] := by
  refine ⟨by decide, by decide⟩

/-- Claim C7, counterexample: against an empty store and the unchanged
two-record batch sharing identifier `"X"`, the first run inserts both
rows (titles `A`, `B`); the second run, with `"X"` now stored, re-applies
both records as updates over both rows and leaves both carrying title
`"B"` — the store changes on the second run, so the run is not a net
no-op even though every identifier is non-empty. -/
theorem c7_duplicate_ids_counterexample :
    ((inserir_no_banco no_fail sample_today 0 []
        [sample_edital "X" "A", sample_edital "X" "B"]).store.map (fun r => r.title))
      = ["A", "B"]
    ∧ ((inserir_no_banco no_fail sample_today 0
          (inserir_no_banco no_fail sample_today 0 []
            [sample_edital "X" "A", sample_edital "X" "B"]).store
          [sample_edital "X" "A", sample_edital "X" "B"]).store.map (fun r => r.title))
      = ["B", "B"]
    ∧ (inserir_no_banco no_fail sample_today 0
          (inserir_no_banco no_fail sample_today 0 []
            [sample_edital "X" "A", sample_edital "X" "B"]).store
          [sample_edital "X" "A", sample_edital "X" "B"]).inseridos = 0 := by
  refine ⟨by decide, by decide, by decide⟩

/-- Claim C8, counterexample: the value `inserir_no_banco` hands back to
its caller is the same bare `True` whether the batch was inserted,
updated, or failed entirely — the insert/update counters are only
logged, and no failure counter exists at all — so the caller does not
receive the aggregate counts `{inserted, updated, failed}` the claim
asserts. -/
theorem c8_boolean_result_counterexample :
    (inserir_no_banco no_fail sample_today 0 [] [sample_edital "X" "A"]).ret
      = (inserir_no_banco no_fail sample_today 0
          [dados_of sample_today 0 (sample_edital "X" "Z")] [sample_edital "X" "A"]).ret
    ∧ (inserir_no_banco no_fail sample_today 0 [] [sample_edital "X" "A"]).inseridos = 1
    ∧ (inserir_no_banco no_fail sample_today 0
        [dados_of sample_today 0 (sample_edital "X" "Z")] [sample_edital "X" "A"]).inseridos = 0
    ∧ (inserir_no_banco no_fail sample_today 0 [] [sample_edital "X" "A"]).atualizados = 0
    ∧ (inserir_no_banco no_fail sample_today 0
        [dados_of sample_today 0 (sample_edital "X" "Z")] [sample_edital "X" "A"]).atualizados = 1
    ∧ (inserir_no_banco (fun _ => true) sample_today 0 [] [sample_edital "X" "A"]).ret = true
    ∧ (inserir_no_banco (fun _ => true) sample_today 0 [] [sample_edital "X" "A"]).inseridos = 0
    ∧ (inserir_no_banco (fun _ => true) sample_today 0 [] [sample_edital "X" "A"]).atualizados = 0 := by
  refine ⟨by decide, by decide, by decide, by decide, by decide, by decide, by decide, by decide⟩

/-- Helper: with fewer than two values, the total-value selection
collapses to the unit-value selection. -/
theorem total_sel_eq_head (vs : List Rat) (h : ¬ vs.length > 1) :
    (if vs.length > 1 then vs.get? 1 else vs.head?) = vs.head? := by
  rw [if_neg h]

/-- Claim C10: in both text-fallback parsers, whenever the row carries
exactly one successfully converted currency-marked value, the produced
item's total value equals its unit value; the two can differ only when
the row carries at least two such values. -/
theorem c10_single_value_total_equals_unit (row : List Char) (idx : Nat) (it : ItemRow) :
    (parse_item_row row idx = some it →
      ((valores_items (row_parts row)).length = 1 → it.valor_total = it.valor_unitario)
      ∧ (it.valor_total ≠ it.valor_unitario → 2 ≤ (valores_items (row_parts row)).length))
    ∧ (parse_item_row_corrected row idx = some it →
      ((valores_auto (row_parts_cor row)).length = 1 → it.valor_total = it.valor_unitario)
      ∧ (it.valor_total ≠ it.valor_unitario → 2 ≤ (valores_auto (row_parts_cor row)).length)) := by
  constructor
  · intro h
    simp only [parse_item_row] at h
    split at h
    · exact absurd h (by simp)
    · rw [Option.some_inj] at h
      subst h
      constructor
      · intro h1
        simp only [h1]
        norm_num
      · intro hne
        by_contra hlt
        exact hne (total_sel_eq_head _ (by omega))
  · intro h
    simp only [parse_item_row_corrected] at h
    split at h
    · exact absurd h (by simp)
    · rw [Option.some_inj] at h
      subst h
      constructor
      · intro h1
        simp only [h1]
        norm_num
      · intro hne
        by_contra hlt
        exact hne (total_sel_eq_head _ (by omega))

/-- Witness for claim C10 at the sample row with a single currency
value. -/
theorem c10_single_value_total_equals_unit_witness :
    sample_item.valor_total = sample_item.valor_unitario :=
  ((c10_single_value_total_equals_unit "02   Caneta azul   12   R$ 1,00".data 0
    sample_item).1 (by decide)).1 (by decide)

/-- Helper: a separator-free string splits into itself. -/
theorem splitOnChar_of_not_mem (sep : Char) (v : List Char) (h : sep ∉ v) :
    splitOnChar sep v = [v] := by
  induction v with
  | nil => rfl
  | cons c t ih =>
    have hc : ¬ c = sep := fun hcs => h (hcs ▸ List.mem_cons_self c t)
    have ht : sep ∉ t := fun hm => h (List.mem_cons_of_mem _ hm)
    simp only [splitOnChar, if_neg hc, ih ht]

/-- Helper: splitting at the unique separator occurrence yields the two
surrounding parts. -/
theorem splitOnChar_append_pair (sep : Char) (a b : List Char)
    (ha : sep ∉ a) (hb : sep ∉ b) :
    splitOnChar sep (a ++ sep :: b) = [a, b] := by
  induction a with
  | nil => simp [splitOnChar, splitOnChar_of_not_mem sep b hb]
  | cons c t ih =>
    have hc : ¬ c = sep := fun hcs => ha (hcs ▸ List.mem_cons_self c t)
    have ht : sep ∉ t := fun hm => ha (List.mem_cons_of_mem _ hm)
    simp only [List.cons_append, splitOnChar, if_neg hc, List.append_eq, ih ht]

/-- Helper: containment of the explicit comma. -/
theorem contains_comma_append (a b : List Char) :
    (a ++ ',' :: b).contains ',' = true :=
  List.elem_iff.mpr (List.mem_append_right _ (List.mem_cons_self _ _))

/-- Helper: a comma-free string does not contain a comma. -/
theorem contains_comma_false (v : List Char) (h : ',' ∉ v) :
    v.contains ',' = false := by
  by_contra hc
  exact h (List.elem_iff.mp (Bool.of_not_eq_false hc))

/-- Claim C4: separator disambiguation of the Value Normalizer.  On a
fragment with one comma, everything before the comma is stripped of its
dots (thousands separators) and the segment after the comma becomes the
fractional part; with no comma, all dots are thousands separators and
dropped.  On the claim's examples both scraper variants agree:
`"R$ 1.234.567,89"` parses to 1234567.89 and `"R$ 1500,00"` to 1500.00,
while a non-numeric cell contributes null in both variants. -/
theorem c4_currency_normalization :
    (∀ a b : List Char, ',' ∉ a → ',' ∉ b →
      parse_valor_num (a ++ ',' :: b) = pyFloat (replaceList ['.'] [] a ++ '.' :: b))
    ∧ (∀ v : List Char, ',' ∉ v → parse_valor_num v = pyFloat (replaceList ['.'] [] v))
    ∧ parse_valor_auto "R$ 1.234.567,89".data = some (mkRat 123456789 100)
    ∧ parse_valor_items "R$ 1.234.567,89".data = some (mkRat 123456789 100)
    ∧ parse_valor_auto "R$ 1500,00".data = some (mkRat 150000 100)
    ∧ parse_valor_items "R$ 1500,00".data = some (mkRat 150000 100)
    ∧ extract_valores_items ["not a number".data] = (none, none)
    ∧ extract_valores_auto ["not a number".data] = (none, none) := by
  refine ⟨?_, ?_, by decide, by decide, by decide, by decide, by decide, by decide⟩
  · intro a b ha hb
    simp only [parse_valor_num, contains_comma_append a b, if_true,
      splitOnChar_append_pair ',' a b ha hb]
  · intro v hv
    simp only [parse_valor_num, contains_comma_false v hv, Bool.false_eq_true, if_false]

/-- Witness for claim C4 at a concrete one-comma and comma-free input. -/
theorem c4_currency_normalization_witness :
    parse_valor_num ("1.234".data ++ ',' :: "56".data)
      = pyFloat (replaceList ['.'] [] "1.234".data ++ '.' :: "56".data)
    ∧ parse_valor_num "6.250".data = pyFloat (replaceList ['.'] [] "6.250".data) :=
  ⟨c4_currency_normalization.1 "1.234".data "56".data (by decide) (by decide),
   c4_currency_normalization.2.1 "6.250".data (by decide)⟩

/-- Helper: a non-contributing cell leaves the value-assignment state
unchanged. -/
theorem val_fold_step_skip (conv : List Char → Option Rat)
    (st : Option PyVal × Option PyVal) (c : List Char)
    (h : cell_contributes conv c = false) :
    val_fold_step conv st c = st := by
  unfold cell_contributes at h
  unfold val_fold_step
  by_cases hc : containsStr c "R$".data
  · rw [if_pos hc] at h ⊢
    have hn : conv c = none := by
      cases hcc : conv c with
      | none => rfl
      | some q => rw [hcc] at h; exact absurd h (by simp)
    rw [hn]
  · rw [if_neg hc] at h ⊢
    rw [if_neg (of_decide_eq_false h)]

/-- Helper: a prefix of non-contributing cells keeps the state. -/
theorem val_fold_keep (conv : List Char → Option Rat)
    (st : Option PyVal × Option PyVal) (pre : List (List Char))
    (h : ∀ c ∈ pre, cell_contributes conv c = false) :
    pre.foldl (val_fold_step conv) st = st := by
  induction pre generalizing st with
  | nil => rfl
  | cons c t ih =>
    rw [List.foldl_cons, val_fold_step_skip conv st c (h c (List.mem_cons_self c t))]
    exact ih st (fun d hd => h d (List.mem_cons_of_mem _ hd))

/-- Helper: once the unit value is set, no later cell clears it. -/
theorem val_fold_fst_stable (conv : List Char → Option Rat)
    (v : PyVal) (post : List (List Char)) :
    ∀ t, (post.foldl (val_fold_step conv) (some v, t)).1 = some v := by
  induction post with
  | nil => intro t; rfl
  | cons c cs ih =>
    intro t
    rw [List.foldl_cons]
    have hstep : ∃ t', val_fold_step conv (some v, t) c = (some v, t') := by
      unfold val_fold_step
      by_cases hc : containsStr c "R$".data
      · rw [if_pos hc]
        cases conv c with
        | none => exact ⟨t, rfl⟩
        | some q => exact ⟨some (PyVal.num q), rfl⟩
      · rw [if_neg hc]
        by_cases hs : c = "Sigiloso".data
        · simp only [hs, if_pos rfl]
          exact ⟨some PyVal.sig, rfl⟩
        · simp only [if_neg hs]
          exact ⟨t, rfl⟩
    obtain ⟨t', ht'⟩ := hstep
    rw [ht']
    exact ih t'

/-- Claim C5, amended: a value cell that is exactly the literal
`"Sigiloso"` (case-sensitive) is mapped by both structural extractors to
the confidential sentinel — provided no earlier cell already contributed
a value, it becomes the unit value — and the sentinel is a tri-state
distinct from both zero and null. -/
theorem c5_sigiloso_exact_sentinel :
    (∀ pre post : List (List Char),
      (∀ c ∈ pre, cell_contributes parse_valor_items c = false) →
      (extract_valores_items (pre ++ "Sigiloso".data :: post)).1 = some PyVal.sig)
    ∧ (∀ pre post : List (List Char),
      (∀ c ∈ pre, cell_contributes parse_valor_auto c = false) →
      (extract_valores_auto (pre ++ "Sigiloso".data :: post)).1 = some PyVal.sig)
    ∧ PyVal.sig ≠ PyVal.num 0
    ∧ some PyVal.sig ≠ (none : Option PyVal) := by
  refine ⟨?_, ?_, by decide, by decide⟩
  · intro pre post h
    unfold extract_valores_items
    rw [List.foldl_append, val_fold_keep parse_valor_items (none, none) pre h,
      List.foldl_cons]
    have hstep : val_fold_step parse_valor_items (none, none) "Sigiloso".data
        = (some PyVal.sig, none) := by decide
    rw [hstep]
    exact val_fold_fst_stable parse_valor_items PyVal.sig post none
  · intro pre post h
    unfold extract_valores_auto
    rw [List.foldl_append, val_fold_keep parse_valor_auto (none, none) pre h,
      List.foldl_cons]
    have hstep : val_fold_step parse_valor_auto (none, none) "Sigiloso".data
        = (some PyVal.sig, none) := by decide
    rw [hstep]
    exact val_fold_fst_stable parse_valor_auto PyVal.sig post none

/-- Witness for claim C5 at a concrete row whose first cell does not
contribute a value. -/
theorem c5_sigiloso_exact_sentinel_witness :
    (extract_valores_items ("01".data :: "Sigiloso".data :: ["R$ 2,00".data])).1
      = some PyVal.sig
    ∧ (extract_valores_auto ("01".data :: "Sigiloso".data :: ["R$ 2,00".data])).1
      = some PyVal.sig :=
  ⟨c5_sigiloso_exact_sentinel.1 ["01".data] ["R$ 2,00".data] (by decide),
   c5_sigiloso_exact_sentinel.2.1 ["01".data] ["R$ 2,00".data] (by decide)⟩

/-- Claim C2: per-record behaviour of the Reconciler, with the
identifier set loaded from the batch-start store.  A record whose
non-empty identifier is already present is applied as a field-level
update: the store keeps its length, the update counter advances, every
matching row gets the descriptive, financial and child-collection
columns overwritten (while `data_source`, `created_at` and the key are
preserved) and non-matching rows are untouched.  Any other record — in
particular every record with an empty identifier, which never satisfies
the match condition — is appended as a new row and the insert counter
advances. -/
theorem c2_update_insert_partition (S0 S : List Row) (i u : Nat) (e : Edital)
    (today : YMD) (now : Nat) :
    (should_update (existing_ids S0) e = true →
      apply_edital no_fail (existing_ids S0) today now (S, i, u) e
        = (S.map (update_row (dados_of today now e)), i, u + 1)
      ∧ (S.map (update_row (dados_of today now e))).length = S.length)
    ∧ (should_update (existing_ids S0) e = false →
      apply_edital no_fail (existing_ids S0) today now (S, i, u) e
        = (S ++ [dados_of today now e], i + 1, u))
    ∧ (e.pncp_id = "" → should_update (existing_ids S0) e = false)
    ∧ (∀ r : Row,
        (update_row (dados_of today now e) r).pncp_id = r.pncp_id
        ∧ (r.pncp_id = e.pncp_id →
            updated_fields_eq (update_row (dados_of today now e) r)
              (dados_of today now e) = true
            ∧ (update_row (dados_of today now e) r).data_source = r.data_source
            ∧ (update_row (dados_of today now e) r).created_at = r.created_at)
        ∧ (r.pncp_id ≠ e.pncp_id → update_row (dados_of today now e) r = r)) := by
  refine ⟨?_, ?_, ?_, ?_⟩
  · intro h
    exact ⟨by simp [apply_edital, no_fail, h], List.length_map _ _⟩
  · intro h
    simp [apply_edital, no_fail, h]
  · intro h
    simp [should_update, h]
  · intro r
    have hd : (dados_of today now e).pncp_id = e.pncp_id := rfl
    refine ⟨?_, ?_, ?_⟩
    · unfold update_row
      split <;> rfl
    · intro hr
      have hmatch : r.pncp_id = (dados_of today now e).pncp_id := by rw [hd, hr]
      refine ⟨?_, ?_, ?_⟩
      · simp [update_row, if_pos hmatch, updated_fields_eq]
      · simp [update_row, if_pos hmatch]
      · simp [update_row, if_pos hmatch]
    · intro hr
      have hmatch : ¬ r.pncp_id = (dados_of today now e).pncp_id := by rw [hd]; exact hr
      simp [update_row, if_neg hmatch]

/-- Witness for claim C2: one update-branch record, one empty-identifier
record, and the row-level facts at a concrete row. -/
theorem c2_update_insert_partition_witness :
    (apply_edital no_fail (existing_ids [dados_of sample_today 0 (sample_edital "X" "Z")])
        sample_today 0 ([dados_of sample_today 0 (sample_edital "X" "Z")], 0, 0)
        (sample_edital "X" "A")
      = ([dados_of sample_today 0 (sample_edital "X" "Z")].map
          (update_row (dados_of sample_today 0 (sample_edital "X" "A"))), 0, 1)
      ∧ ([dados_of sample_today 0 (sample_edital "X" "Z")].map
          (update_row (dados_of sample_today 0 (sample_edital "X" "A")))).length
        = [dados_of sample_today 0 (sample_edital "X" "Z")].length)
    ∧ (apply_edital no_fail (existing_ids [dados_of sample_today 0 (sample_edital "X" "Z")])
        sample_today 0 ([dados_of sample_today 0 (sample_edital "X" "Z")], 0, 0)
        (sample_edital "" "B")
      = ([dados_of sample_today 0 (sample_edital "X" "Z")]
          ++ [dados_of sample_today 0 (sample_edital "" "B")], 1, 0))
    ∧ should_update (existing_ids [dados_of sample_today 0 (sample_edital "X" "Z")])
        (sample_edital "" "B") = false
    ∧ updated_fields_eq
        (update_row (dados_of sample_today 0 (sample_edital "X" "A"))
          (dados_of sample_today 0 (sample_edital "X" "Z")))
        (dados_of sample_today 0 (sample_edital "X" "A")) = true := by
  refine ⟨(c2_update_insert_partition [dados_of sample_today 0 (sample_edital "X" "Z")]
      [dados_of sample_today 0 (sample_edital "X" "Z")] 0 0 (sample_edital "X" "A")
      sample_today 0).1 (by decide),
    (c2_update_insert_partition [dados_of sample_today 0 (sample_edital "X" "Z")]
      [dados_of sample_today 0 (sample_edital "X" "Z")] 0 0 (sample_edital "" "B")
      sample_today 0).2.1 (by decide),
    (c2_update_insert_partition [dados_of sample_today 0 (sample_edital "X" "Z")]
      [dados_of sample_today 0 (sample_edital "X" "Z")] 0 0 (sample_edital "" "B")
      sample_today 0).2.2.1 (by decide),
    (((c2_update_insert_partition [dados_of sample_today 0 (sample_edital "X" "Z")]
      [dados_of sample_today 0 (sample_edital "X" "Z")] 0 0 (sample_edital "X" "A")
      sample_today 0).2.2.2 (dados_of sample_today 0 (sample_edital "X" "Z"))).2.1
      (by decide)).1⟩

/-- Helper: one reconciliation step, split into its store part and the
two counter increments (the branch taken depends only on the loaded
identifier set, never on the evolving store). -/
theorem apply_edital_eq (f : Edital → Bool) (ex : List String) (today : YMD) (now : Nat)
    (S : List Row) (i u : Nat) (e : Edital) :
    apply_edital f ex today now (S, i, u) e
      = (store_step f ex today now S e,
         i + (if !f e && !should_update ex e then 1 else 0),
         u + (if !f e && should_update ex e then 1 else 0)) := by
  unfold apply_edital store_step
  by_cases hf : f e <;> by_cases hs : should_update ex e <;> simp [hf, hs]

/-- Helper: the reconciliation fold, decomposed into the store fold and
the two counters (counts of non-failing records per branch). -/
theorem foldl_apply_edital (f : Edital → Bool) (ex : List String) (today : YMD) (now : Nat)
    (B : List Edital) :
    ∀ (S : List Row) (i u : Nat),
      B.foldl (apply_edital f ex today now) (S, i, u)
        = (B.foldl (store_step f ex today now) S,
           i + (B.filter (fun e => !f e && !should_update ex e)).length,
           u + (B.filter (fun e => !f e && should_update ex e)).length) := by
  induction B with
  | nil => intro S i u; simp
  | cons e B ih =>
    intro S i u
    rw [List.foldl_cons, apply_edital_eq, ih, List.foldl_cons]
    simp only [List.filter_cons]
    by_cases hf : f e <;> by_cases hs : should_update ex e <;>
      simp [hf, hs, Prod.ext_iff] <;> omega

/-- Helper: the store produced by `inserir_no_banco` is the store fold
with the identifier set loaded at batch start. -/
theorem inserir_store (f : Edital → Bool) (today : YMD) (now : Nat)
    (S : List Row) (B : List Edital) :
    (inserir_no_banco f today now S B).store
      = B.foldl (store_step f (existing_ids S) today now) S := by
  unfold inserir_no_banco
  dsimp only
  rw [foldl_apply_edital]

/-- Helper: the two counters of `inserir_no_banco` count the surviving
records of each branch. -/
theorem inserir_counts (f : Edital → Bool) (today : YMD) (now : Nat)
    (S : List Row) (B : List Edital) :
    (inserir_no_banco f today now S B).inseridos
      = (B.filter (fun e => !f e && !should_update (existing_ids S) e)).length
    ∧ (inserir_no_banco f today now S B).atualizados
      = (B.filter (fun e => !f e && should_update (existing_ids S) e)).length := by
  unfold inserir_no_banco
  dsimp only
  rw [foldl_apply_edital]
  exact ⟨Nat.zero_add _, Nat.zero_add _⟩

/-- Helper: a record whose write fails is skipped entirely. -/
theorem apply_edital_fail (f : Edital → Bool) (ex : List String) (today : YMD) (now : Nat)
    (acc : List Row × Nat × Nat) (e : Edital) (h : f e = true) :
    apply_edital f ex today now acc e = acc := by
  unfold apply_edital
  rw [if_pos h]

/-- Claim C8, amended: a failing record's write is caught and the batch
continues — reconciling a batch with a failing record is the same as
reconciling the batch without it — and the insert/update counters
aggregate over the surviving records; but the value returned to the
caller is always the bare boolean `true`, with no failure count. -/
theorem c8_partial_failure_tolerance :
    (∀ (f : Edital → Bool) (today : YMD) (now : Nat) (S : List Row)
        (pre : List Edital) (bad : Edital) (post : List Edital), f bad = true →
      inserir_no_banco f today now S (pre ++ bad :: post)
        = inserir_no_banco f today now S (pre ++ post))
    ∧ (∀ (f : Edital → Bool) (today : YMD) (now : Nat) (S : List Row) (B : List Edital),
        (inserir_no_banco f today now S B).ret = true)
    ∧ (∀ (f : Edital → Bool) (today : YMD) (now : Nat) (S : List Row) (B : List Edital),
        (inserir_no_banco f today now S B).inseridos
          = (B.filter (fun e => !f e && !should_update (existing_ids S) e)).length
        ∧ (inserir_no_banco f today now S B).atualizados
          = (B.filter (fun e => !f e && should_update (existing_ids S) e)).length) := by
  refine ⟨?_, ?_, ?_⟩
  · intro f today now S pre bad post h
    unfold inserir_no_banco
    dsimp only
    rw [List.foldl_append, List.foldl_append, List.foldl_cons,
      apply_edital_fail f (existing_ids S) today now _ bad h]
  · intro f today now S B
    rfl
  · intro f today now S B
    exact inserir_counts f today now S B

/-- Witness for claim C8 at a concrete failing record. -/
theorem c8_partial_failure_tolerance_witness :
    inserir_no_banco (fun e => e.pncp_id = "BAD") sample_today 0 []
        ([sample_edital "X" "A"] ++ sample_edital "BAD" "B" :: [sample_edital "Y" "C"])
      = inserir_no_banco (fun e => e.pncp_id = "BAD") sample_today 0 []
        ([sample_edital "X" "A"] ++ [sample_edital "Y" "C"])
    ∧ (inserir_no_banco (fun e => e.pncp_id = "BAD") sample_today 0 []
        ([sample_edital "X" "A"] ++ sample_edital "BAD" "B" :: [sample_edital "Y" "C"])).ret
      = true :=
  ⟨c8_partial_failure_tolerance.1 (fun e => e.pncp_id = "BAD") sample_today 0 []
      [sample_edital "X" "A"] (sample_edital "BAD" "B") [sample_edital "Y" "C"] (by decide),
   c8_partial_failure_tolerance.2.1 (fun e => e.pncp_id = "BAD") sample_today 0 []
      ([sample_edital "X" "A"] ++ sample_edital "BAD" "B" :: [sample_edital "Y" "C"])⟩

/-- Helper: enumeration preserves length. -/
theorem enumFrom_length {α : Type} (i : Nat) (l : List α) :
    (enumFrom i l).length = l.length := by
  induction l generalizing i with
  | nil => rfl
  | cons a t ih => simp [enumFrom, ih]

/-- Helper: one selector yields at most five descriptors. -/
theorem process_selector_length_le (idx : Nat) (links : List DLink) :
    (process_selector idx links).length ≤ 5 := by
  calc (process_selector idx links).length
      ≤ (enumFrom 0 (links.take 5)).length := List.length_filterMap_le _ _
    _ = (links.take 5).length := enumFrom_length 0 _
    _ ≤ 5 := List.length_take_le 5 links

/-- Claim C9: the File Collector records at most five files; it is the
first selector, in the fixed priority order, whose processing yields any
descriptor that supplies the result; and every recorded descriptor comes
from a clicked link with an `href` among the first five matches, is
named `edital_{tender}_{file}_{suggested}` from the engine-suggested
filename, is persisted under the local `downloads` directory, and
carries the size of the resulting file. -/
theorem c9_file_collector :
    (∀ (idx : Nat) (srs : List (List DLink)),
      (find_and_download_files idx srs).length ≤ 5)
    ∧ (∀ (idx : Nat) (srs : List (List DLink)),
      find_and_download_files idx srs
        = ((srs.map (process_selector idx)).find? (fun l => !l.isEmpty)).getD [])
    ∧ (∀ (idx : Nat) (links : List DLink) (fd : DFile),
      fd ∈ process_selector idx links →
      ∃ i lk d, (i, lk) ∈ enumFrom 0 (links.take 5) ∧ lk.href.isSome
        ∧ lk.download = some d
        ∧ fd.filename = "edital_" ++ toString idx ++ "_" ++ toString i ++ "_"
            ++ (if d.suggested = "" then
                  "arquivo_" ++ toString idx ++ "_" ++ toString i ++ ".pdf"
                else d.suggested)
        ∧ fd.filepath = "downloads/" ++ fd.filename
        ∧ fd.size = d.size.getD 0) := by
  refine ⟨?_, ?_, ?_⟩
  · intro idx srs
    induction srs with
    | nil => simp [find_and_download_files]
    | cons links rest ih =>
      unfold find_and_download_files
      dsimp only
      split
      · exact ih
      · exact process_selector_length_le idx links
  · intro idx srs
    induction srs with
    | nil => rfl
    | cons links rest ih =>
      unfold find_and_download_files
      dsimp only
      by_cases h : (process_selector idx links).isEmpty
      · rw [if_pos h, ih, List.map_cons, List.find?_cons]
        have hfalse : (!(process_selector idx links).isEmpty) = false := by
          rw [h]; rfl
        rw [hfalse]
      · rw [if_neg h, List.map_cons, List.find?_cons]
        have htrue : (!(process_selector idx links).isEmpty) = true := by
          simp only [Bool.not_eq_true] at h
          rw [h]; rfl
        rw [htrue, Option.getD_some]
  · intro idx links fd hmem
    unfold process_selector at hmem
    obtain ⟨⟨i, lk⟩, hin, hsome⟩ := List.mem_filterMap.mp hmem
    by_cases hh : lk.href.isSome
    · rw [if_pos hh] at hsome
      unfold download_file at hsome
      cases hd : lk.download with
      | none => rw [hd] at hsome; exact absurd hsome (by simp)
      | some d =>
        rw [hd] at hsome
        dsimp only at hsome
        rw [Option.some_inj] at hsome
        refine ⟨i, lk, d, hin, hh, hd, ?_, ?_, ?_⟩
        · rw [← hsome]
        · rw [← hsome]
        · rw [← hsome]
    · rw [if_neg hh] at hsome
      exact absurd hsome (by simp)

/-- Witness for claim C9 at a one-selector, one-link page. -/
theorem c9_file_collector_witness :
    (find_and_download_files 3 [[sample_dlink]]).length ≤ 5
    ∧ find_and_download_files 3 [[sample_dlink]]
      = (([[sample_dlink]].map (process_selector 3)).find? (fun l => !l.isEmpty)).getD []
    ∧ (∃ i lk d, (i, lk) ∈ enumFrom 0 ([sample_dlink].take 5) ∧ lk.href.isSome
        ∧ lk.download = some d
        ∧ sample_dfile.filename = "edital_" ++ toString 3 ++ "_" ++ toString i ++ "_"
            ++ (if d.suggested = "" then
                  "arquivo_" ++ toString 3 ++ "_" ++ toString i ++ ".pdf"
                else d.suggested)
        ∧ sample_dfile.filepath = "downloads/" ++ sample_dfile.filename
        ∧ sample_dfile.size = d.size.getD 0) :=
  ⟨c9_file_collector.1 3 [[sample_dlink]],
   c9_file_collector.2.1 3 [[sample_dlink]],
   c9_file_collector.2.2 3 [sample_dlink] sample_dfile (by decide)⟩

/-- Helper: a non-failing record in the update branch maps the store. -/
theorem store_step_update (f : Edital → Bool) (ex : List String) (today : YMD)
    (now : Nat) (S : List Row) (e : Edital) (hf : f e = false)
    (hs : should_update ex e = true) :
    store_step f ex today now S e = S.map (update_row (dados_of today now e)) := by
  simp [store_step, hf, hs]

/-- Helper: a non-failing record in the insert branch appends its row. -/
theorem store_step_insert (f : Edital → Bool) (ex : List String) (today : YMD)
    (now : Nat) (S : List Row) (e : Edital) (hf : f e = false)
    (hs : should_update ex e = false) :
    store_step f ex today now S e = S ++ [dados_of today now e] := by
  simp [store_step, hf, hs]

/-- Helper: the UPDATE never rewrites the key column. -/
theorem update_row_pncp (d r : Row) : (update_row d r).pncp_id = r.pncp_id := by
  unfold update_row
  split <;> rfl

/-- Helper: matching rows carry the SET columns of the update payload. -/
theorem updated_fields_of_match (d r : Row) (h : r.pncp_id = d.pncp_id) :
    updated_fields_eq (update_row d r) d = true := by
  simp [update_row, if_pos h, updated_fields_eq]

/-- Helper: updates do not change how many rows carry an identifier. -/
theorem count_id_map_update (x : String) (d : Row) (S : List Row) :
    count_id x (S.map (update_row d)) = count_id x S := by
  unfold count_id
  induction S with
  | nil => rfl
  | cons r t ih =>
    by_cases h : r.pncp_id = x <;>
      simp [List.filter_cons, update_row_pncp, h, ih]

/-- Helper: appending a row with a different identifier does not change
the count. -/
theorem count_id_append_single (x : String) (S : List Row) (d : Row)
    (h : d.pncp_id ≠ x) :
    count_id x (S ++ [d]) = count_id x S := by
  unfold count_id
  rw [List.filter_append]
  simp [h]

/-- Helper: the reconciliation store fold preserves the row count of
every non-empty identifier in the loaded set. -/
theorem count_id_store_fold (x : String) (ex : List String) (today : YMD) (now : Nat)
    (hx : x ≠ "") (hmem : x ∈ ex) :
    ∀ (B : List Edital) (S : List Row),
      count_id x (B.foldl (store_step no_fail ex today now) S) = count_id x S := by
  intro B
  induction B with
  | nil => intro S; rfl
  | cons e B ih =>
    intro S
    rw [List.foldl_cons, ih]
    unfold store_step
    dsimp only
    rw [if_neg (by simp [no_fail])]
    by_cases hs : should_update ex e
    · rw [if_pos hs]
      exact count_id_map_update x _ S
    · rw [if_neg hs]
      apply count_id_append_single
      intro hdx
      apply hs
      have hex : e.pncp_id = x := hdx
      simp [should_update, hex, hx, hmem]

/-- Claim C1, amended: for a non-empty external identifier already
present (in exactly one row) in the store at batch start, reconciling
any batch leaves exactly one row with that identifier; in particular,
for a batch of two records carrying that identifier, the surviving row
holds the later record's descriptive, financial and child-collection
field values.  (Identifiers absent from the store at batch start do not
enjoy this: duplicate new identifiers are each inserted.) -/
theorem c1_dedup_when_id_known (S : List Row) (x : String) (today : YMD) (now : Nat)
    (hx : x ≠ "") (hmem : x ∈ existing_ids S) (hcount : count_id x S = 1) :
    (∀ B : List Edital,
      count_id x (inserir_no_banco no_fail today now S B).store = 1)
    ∧ (∀ e1 e2 : Edital, e1.pncp_id = x → e2.pncp_id = x →
        ((inserir_no_banco no_fail today now S [e1, e2]).store.filter
            (fun r => r.pncp_id = x)).all
          (fun r => updated_fields_eq r (dados_of today now e2)) = true) := by
  constructor
  · intro B
    unfold inserir_no_banco
    dsimp only
    rw [foldl_apply_edital]
    dsimp only
    rw [count_id_store_fold x (existing_ids S) today now hx hmem B S, hcount]
  · intro e1 e2 h1 h2
    have hs1 : should_update (existing_ids S) e1 = true := by
      simp [should_update, h1, hx, hmem]
    have hs2 : should_update (existing_ids S) e2 = true := by
      simp [should_update, h2, hx, hmem]
    unfold inserir_no_banco
    dsimp only
    rw [foldl_apply_edital]
    dsimp only
    rw [List.foldl_cons, List.foldl_cons, List.foldl_nil,
      store_step_update no_fail (existing_ids S) today now S e1 rfl hs1,
      store_step_update no_fail (existing_ids S) today now _ e2 rfl hs2]
    rw [List.all_eq_true]
    intro r hr
    obtain ⟨hrmem, hrx⟩ := List.mem_filter.mp hr
    obtain ⟨r1, hr1, hr1eq⟩ := List.mem_map.mp hrmem
    have hmatch : r1.pncp_id = (dados_of today now e2).pncp_id := by
      have hp : (update_row (dados_of today now e2) r1).pncp_id = r1.pncp_id :=
        update_row_pncp _ _
      rw [hr1eq] at hp
      rw [← hp]
      exact (of_decide_eq_true hrx).trans h2.symm
    rw [← hr1eq]
    exact updated_fields_of_match _ _ hmatch

/-- Witness for claim C1 at a store holding one row with identifier
`"X"` and a two-record batch for that identifier. -/
theorem c1_dedup_when_id_known_witness :
    count_id "X" (inserir_no_banco no_fail sample_today 0
        [dados_of sample_today 0 (sample_edital "X" "Z")]
        [sample_edital "X" "A", sample_edital "X" "B"]).store = 1
    ∧ ((inserir_no_banco no_fail sample_today 0
          [dados_of sample_today 0 (sample_edital "X" "Z")]
          [sample_edital "X" "A", sample_edital "X" "B"]).store.filter
        (fun r => r.pncp_id = "X")).all
          (fun r => updated_fields_eq r
            (dados_of sample_today 0 (sample_edital "X" "B"))) = true :=
  ⟨(c1_dedup_when_id_known [dados_of sample_today 0 (sample_edital "X" "Z")] "X"
      sample_today 0 (by decide) (by decide) (by decide)).1
      [sample_edital "X" "A", sample_edital "X" "B"],
   (c1_dedup_when_id_known [dados_of sample_today 0 (sample_edital "X" "Z")] "X"
      sample_today 0 (by decide) (by decide) (by decide)).2
      (sample_edital "X" "A") (sample_edital "X" "B") rfl rfl⟩

/-- Helper: mapping an identity-on-members function leaves a list
unchanged. -/
theorem map_id_on {α : Type} (f : α → α) (S : List α) (h : ∀ a ∈ S, f a = a) :
    S.map f = S := by
  induction S with
  | nil => rfl
  | cons a t ih =>
    rw [List.map_cons, h a (List.mem_cons_self a t),
      ih (fun b hb => h b (List.mem_cons_of_mem _ hb))]

/-- Helper: updates leave the stored identifier list unchanged. -/
theorem existing_ids_map_update (d : Row) (S : List Row) :
    existing_ids (S.map (update_row d)) = existing_ids S := by
  unfold existing_ids
  induction S with
  | nil => rfl
  | cons r t ih => simp [update_row_pncp, ih]

/-- Helper: the identifiers after one non-failing step (updates keep
them, inserts append the record's identifier). -/
theorem existing_ids_step (ex : List String) (today : YMD) (now : Nat)
    (S : List Row) (e : Edital) :
    existing_ids (store_step no_fail ex today now S e)
      = if should_update ex e then existing_ids S
        else existing_ids S ++ [e.pncp_id] := by
  by_cases hs : should_update ex e
  · rw [if_pos hs, store_step_update no_fail ex today now S e rfl hs,
      existing_ids_map_update]
  · rw [if_neg hs, store_step_insert no_fail ex today now S e rfl
      (Bool.not_eq_true _ ▸ hs)]
    unfold existing_ids
    rw [List.map_append]
    rfl

/-- Helper: a stored identifier survives one reconciliation step. -/
theorem mem_ids_store_step (ex : List String) (today : YMD) (now : Nat)
    (S : List Row) (e : Edital) (x : String) (hx : x ∈ existing_ids S) :
    x ∈ existing_ids (store_step no_fail ex today now S e) := by
  rw [existing_ids_step]
  split
  · exact hx
  · exact List.mem_append_left _ hx

/-- Helper: a stored identifier survives the whole reconciliation fold. -/
theorem mem_ids_fold (ex : List String) (today : YMD) (now : Nat) (B : List Edital) :
    ∀ (S : List Row) (x : String), x ∈ existing_ids S →
      x ∈ existing_ids (B.foldl (store_step no_fail ex today now) S) := by
  induction B with
  | nil => intro S x hx; exact hx
  | cons e B ih =>
    intro S x hx
    rw [List.foldl_cons]
    exact ih _ x (mem_ids_store_step ex today now S e x hx)

/-- Helper: after reconciling a batch whose loaded identifier set is
covered by the store, every record's identifier is stored. -/
theorem batch_ids_in_fold (ex : List String) (today : YMD) (now : Nat) (B : List Edital) :
    ∀ S : List Row, (∀ y ∈ ex, y ∈ existing_ids S) →
      ∀ e ∈ B, e.pncp_id ∈ existing_ids (B.foldl (store_step no_fail ex today now) S) := by
  induction B with
  | nil => intro S _ e he; exact absurd he (List.not_mem_nil e)
  | cons e B ih =>
    intro S hsub e' he'
    rw [List.foldl_cons]
    rcases List.mem_cons.mp he' with rfl | hmem
    · by_cases hs : should_update ex e'
      · have hex : e'.pncp_id ∈ ex := by
          unfold should_update at hs
          rw [Bool.and_eq_true] at hs
          exact List.elem_iff.mp hs.2
        exact mem_ids_fold ex today now B _ e'.pncp_id
          (mem_ids_store_step ex today now S e' _ (hsub _ hex))
      · have : e'.pncp_id ∈ existing_ids (store_step no_fail ex today now S e') := by
          rw [existing_ids_step, if_neg hs]
          exact List.mem_append_right _ (List.mem_singleton.mpr rfl)
        exact mem_ids_fold ex today now B _ e'.pncp_id this
    · exact ih _ (fun y hy => mem_ids_store_step ex today now S e y (hsub y hy)) e' hmem

/-- Helper: an update whose payload the row already carries is a no-op. -/
theorem update_row_noop (d r : Row)
    (h : r.pncp_id = d.pncp_id → updated_fields_eq r d = true) :
    update_row d r = r := by
  unfold update_row
  by_cases hm : r.pncp_id = d.pncp_id
  · rw [if_pos hm]
    have hol := h hm
    simp only [updated_fields_eq, Bool.and_eq_true, beq_iff_eq] at hol
    cases r
    simp_all
  · rw [if_neg hm]

/-- Helper: the SET-column comparison is reflexive. -/
theorem updated_fields_refl (d : Row) : updated_fields_eq d d = true := by
  simp [updated_fields_eq]

/-- Helper: reconciling records with other identifiers preserves the
fact that every row with identifier `x` carries payload `d`. -/
theorem fold_keeps_matches (ex : List String) (today : YMD) (now : Nat)
    (x : String) (d : Row) (B : List Edital) :
    ∀ S : List Row, (∀ e ∈ B, e.pncp_id ≠ x) →
      (∀ r ∈ S, r.pncp_id = x → updated_fields_eq r d = true) →
      ∀ r ∈ B.foldl (store_step no_fail ex today now) S, r.pncp_id = x →
        updated_fields_eq r d = true := by
  induction B with
  | nil => intro S _ hinv r hr hrx; exact hinv r hr hrx
  | cons e B ih =>
    intro S hne hinv
    rw [List.foldl_cons]
    apply ih _ (fun e' he' => hne e' (List.mem_cons_of_mem _ he'))
    intro r hr hrx
    by_cases hs : should_update ex e
    · rw [store_step_update no_fail ex today now S e rfl hs] at hr
      obtain ⟨r0, hr0, hr0eq⟩ := List.mem_map.mp hr
      have hr0x : r0.pncp_id = x := by
        rw [← update_row_pncp (dados_of today now e) r0, hr0eq]
        exact hrx
      have hnomatch : ¬ r0.pncp_id = (dados_of today now e).pncp_id := by
        intro hc
        exact hne e (List.mem_cons_self e B) (hc.symm.trans hr0x)
      rw [← hr0eq]
      unfold update_row
      rw [if_neg hnomatch]
      exact hinv r0 hr0 hr0x
    · rw [store_step_insert no_fail ex today now S e rfl (Bool.not_eq_true _ ▸ hs)] at hr
      rcases List.mem_append.mp hr with hrS | hrD
      · exact hinv r hrS hrx
      · exfalso
        have hrd : r = dados_of today now e := List.mem_singleton.mp hrD
        rw [hrd] at hrx
        exact hne e (List.mem_cons_self e B) hrx

/-- Helper: after its own step, every row carrying the record's
identifier holds the record's payload. -/
theorem step_establishes (ex : List String) (today : YMD) (now : Nat)
    (S : List Row) (e : Edital)
    (hnew : should_update ex e = false → e.pncp_id ∉ existing_ids S) :
    ∀ r ∈ store_step no_fail ex today now S e, r.pncp_id = e.pncp_id →
      updated_fields_eq r (dados_of today now e) = true := by
  intro r hr hrx
  by_cases hs : should_update ex e
  · rw [store_step_update no_fail ex today now S e rfl hs] at hr
    obtain ⟨r0, _, hr0eq⟩ := List.mem_map.mp hr
    have hmatch : r0.pncp_id = (dados_of today now e).pncp_id := by
      rw [← update_row_pncp (dados_of today now e) r0, hr0eq]
      exact hrx
    rw [← hr0eq]
    exact updated_fields_of_match _ _ hmatch
  · rw [store_step_insert no_fail ex today now S e rfl (Bool.not_eq_true _ ▸ hs)] at hr
    rcases List.mem_append.mp hr with hrS | hrD
    · exfalso
      apply hnew (Bool.not_eq_true _ ▸ hs)
      rw [← hrx]
      exact List.mem_map.mpr ⟨r, hrS, rfl⟩
    · rw [List.mem_singleton.mp hrD]
      exact updated_fields_refl _
/-- Helper: after reconciling a batch of non-empty, pairwise distinct
identifiers, every row carrying some record's identifier holds that
record's payload. -/
theorem fold_matches (ex : List String) (today : YMD) (now : Nat) (B : List Edital) :
    ∀ S : List Row, (∀ e ∈ B, e.pncp_id ≠ "") →
      (B.map (fun e => e.pncp_id)).Nodup →
      (∀ e ∈ B, should_update ex e = false → e.pncp_id ∉ existing_ids S) →
      ∀ e ∈ B, ∀ r ∈ B.foldl (store_step no_fail ex today now) S,
        r.pncp_id = e.pncp_id → updated_fields_eq r (dados_of today now e) = true := by
  induction B with
  | nil => intro S _ _ _ e he; exact absurd he (List.not_mem_nil e)
  | cons e B ih =>
    intro S hne hnd hnew e' he' r hr hrx
    rw [List.foldl_cons] at hr
    rw [List.map_cons, List.nodup_cons] at hnd
    rcases List.mem_cons.mp he' with rfl | hmem
    · refine fold_keeps_matches ex today now e'.pncp_id (dados_of today now e') B _
        ?_ ?_ r hr hrx
      · intro e'' he'' hc
        exact hnd.1 (List.mem_map.mpr ⟨e'', he'', hc⟩)
      · exact step_establishes ex today now S e' (hnew e' (List.mem_cons_self e' B))
    · refine ih _ (fun a ha => hne a (List.mem_cons_of_mem _ ha)) hnd.2 ?_ e' hmem r hr hrx
      intro e'' he'' hs
      rw [existing_ids_step]
      split
      · exact hnew e'' (List.mem_cons_of_mem _ he'') hs
      · intro hcon
        rcases List.mem_append.mp hcon with hin | hone
        · exact hnew e'' (List.mem_cons_of_mem _ he'') hs hin
        · have heq : e''.pncp_id = e.pncp_id := List.mem_singleton.mp hone
          exact hnd.1 (List.mem_map.mpr ⟨e'', he'', heq⟩)

/-- Helper: with every record in the update branch, the store fold is a
fold of UPDATE maps. -/
theorem fold_all_update (ex : List String) (today : YMD) (now : Nat) (B : List Edital)
    (h : ∀ e ∈ B, should_update ex e = true) :
    ∀ S : List Row, B.foldl (store_step no_fail ex today now) S
      = B.foldl (fun s e => s.map (update_row (dados_of today now e))) S := by
  induction B with
  | nil => intro S; rfl
  | cons e B ih =>
    intro S
    rw [List.foldl_cons, List.foldl_cons,
      store_step_update no_fail ex today now S e rfl (h e (List.mem_cons_self e B))]
    exact ih (fun a ha => h a (List.mem_cons_of_mem _ ha)) _

/-- Helper: a fold of UPDATE maps whose payloads the store already
carries is the identity. -/
theorem fold_update_id (today : YMD) (now : Nat) (B : List Edital) :
    ∀ S : List Row,
      (∀ e ∈ B, ∀ r ∈ S, r.pncp_id = e.pncp_id →
        updated_fields_eq r (dados_of today now e) = true) →
      B.foldl (fun s e => s.map (update_row (dados_of today now e))) S = S := by
  induction B with
  | nil => intro S _; rfl
  | cons e B ih =>
    intro S h
    rw [List.foldl_cons,
      map_id_on _ S (fun r hr =>
        update_row_noop _ r (fun hm => h e (List.mem_cons_self e B) r hr hm)),
      ih _ (fun a ha r hr hm => h a (List.mem_cons_of_mem _ ha) r hr hm)]

/-- Claim C7, amended: for a batch whose records all carry non-empty,
pairwise distinct external identifiers, re-running reconciliation with
the unchanged batch against the store left by the first run performs
zero inserts — every record re-applies as an update that rewrites the
values already stored — and leaves the store exactly as the first run
left it.  (Without distinctness this fails, see the counterexample.) -/
theorem c7_idempotent_when_ids_distinct (today : YMD) (now : Nat)
    (S : List Row) (B : List Edital)
    (hne : ∀ e ∈ B, e.pncp_id ≠ "")
    (hnd : (B.map (fun e => e.pncp_id)).Nodup) :
    (inserir_no_banco no_fail today now
        (inserir_no_banco no_fail today now S B).store B).store
      = (inserir_no_banco no_fail today now S B).store
    ∧ (inserir_no_banco no_fail today now
        (inserir_no_banco no_fail today now S B).store B).inseridos = 0
    ∧ (inserir_no_banco no_fail today now
        (inserir_no_banco no_fail today now S B).store B).atualizados = B.length := by
  have hstore1 : (inserir_no_banco no_fail today now S B).store
      = B.foldl (store_step no_fail (existing_ids S) today now) S :=
    inserir_store no_fail today now S B
  have hin : ∀ e ∈ B,
      e.pncp_id ∈ existing_ids (inserir_no_banco no_fail today now S B).store := by
    intro e he
    rw [hstore1]
    exact batch_ids_in_fold (existing_ids S) today now B S (fun y hy => hy) e he
  have hupd : ∀ e ∈ B,
      should_update (existing_ids (inserir_no_banco no_fail today now S B).store) e
        = true := by
    intro e he
    simp [should_update, hne e he, hin e he]
  refine ⟨?_, ?_, ?_⟩
  · rw [inserir_store no_fail today now (inserir_no_banco no_fail today now S B).store B,
      fold_all_update _ today now B hupd]
    apply fold_update_id
    intro e he r hr hm
    rw [hstore1] at hr
    refine fold_matches (existing_ids S) today now B S hne hnd ?_ e he r hr hm
    intro e' he' hs hmem
    have hcon : should_update (existing_ids S) e' = true := by
      simp [should_update, hne e' he', hmem]
    rw [hcon] at hs
    exact absurd hs (by simp)
  · rw [(inserir_counts no_fail today now
      (inserir_no_banco no_fail today now S B).store B).1,
      List.length_eq_zero, List.filter_eq_nil_iff]
    intro e he
    simp [no_fail, hupd e he]
  · rw [(inserir_counts no_fail today now
      (inserir_no_banco no_fail today now S B).store B).2]
    have hself : B.filter (fun e => !no_fail e
        && should_update (existing_ids (inserir_no_banco no_fail today now S B).store) e)
        = B := by
      rw [List.filter_eq_self]
      intro e he
      simp [no_fail, hupd e he]
    rw [hself]

/-- Witness for claim C7 at a two-record batch with distinct non-empty
identifiers over the empty store. -/
theorem c7_idempotent_when_ids_distinct_witness :
    (inserir_no_banco no_fail sample_today 0
        (inserir_no_banco no_fail sample_today 0 []
          [sample_edital "X" "A", sample_edital "Y" "B"]).store
        [sample_edital "X" "A", sample_edital "Y" "B"]).store
      = (inserir_no_banco no_fail sample_today 0 []
          [sample_edital "X" "A", sample_edital "Y" "B"]).store
    ∧ (inserir_no_banco no_fail sample_today 0
        (inserir_no_banco no_fail sample_today 0 []
          [sample_edital "X" "A", sample_edital "Y" "B"]).store
        [sample_edital "X" "A", sample_edital "Y" "B"]).inseridos = 0
    ∧ (inserir_no_banco no_fail sample_today 0
        (inserir_no_banco no_fail sample_today 0 []
          [sample_edital "X" "A", sample_edital "Y" "B"]).store
        [sample_edital "X" "A", sample_edital "Y" "B"]).atualizados
      = [sample_edital "X" "A", sample_edital "Y" "B"].length :=
  c7_idempotent_when_ids_distinct sample_today 0 []
    [sample_edital "X" "A", sample_edital "Y" "B"] (by decide) (by decide)
